import Mathlib

/-!
A verification development for the `gemini-eyes` real-time coaching backend
(`backend/api/realtime_coaching.py` and the live-frame endpoints of
`backend/api/views.py`).  The Python source is shallowly embedded: numeric
coordinates become rationals, Python dictionaries holding pose landmarks
become an explicit value type with Python attribute/indexing errors made
explicit in an `Except` monad, and the mutable per-service state becomes an
explicit `ServiceState` record threaded through the functions.
-/

namespace GeminiEyes

/-! ## Depth-cycle (squat) detector state machine

Embeds the state machine of `_detect_squat_completion`
(`realtime_coaching.py` lines 135-228).  The detector keeps
`self._squat_detection_state = {current_state, min_depth_reached,
position_history}` and steps it on each smoothed hip-knee sample. -/

inductive SquatPhase where
  | standing
  | descending
  | bottom
  | ascending
deriving DecidableEq, Repr

structure SquatState where
  currentState : SquatPhase
  minDepthReached : ℚ
  positionHistory : List ℚ
deriving DecidableEq, Repr

/-- The dict created when `self._squat_detection_state` does not exist yet. -/
def initSquatState : SquatState := ⟨.standing, 0, []⟩

/-- `state['position_history'].append(x)` followed by `pop(0)` when the
length exceeds 5. -/
def pushHistory (h : List ℚ) (x : ℚ) : List ℚ :=
  let h2 := h ++ [x]
  if h2.length > 5 then h2.drop 1 else h2

/-- `avg_position = sum(history) / len(history)` after pushing the new
sample, i.e. the smoothed hip-knee signal used by the state machine. -/
def smoothedPosition (st : SquatState) (x : ℚ) : ℚ :=
  let h := pushHistory st.positionHistory x
  h.sum / h.length

/-- One step of the squat state machine on a raw hip-knee difference `x`
(the code's `hip_knee_diff`).  Returns the `completed` flag and the updated
detector state. -/
def squatMachineStep (st : SquatState) (x : ℚ) : Bool × SquatState :=
  let hist := pushHistory st.positionHistory x
  let avg := hist.sum / hist.length
  match st.currentState with
  | .standing =>
      if avg < 2/100 then (false, ⟨.descending, avg, hist⟩)
      else (false, ⟨.standing, st.minDepthReached, hist⟩)
  | .descending =>
      let m := min st.minDepthReached avg
      if avg < -(8/100) then (false, ⟨.bottom, m, hist⟩)
      else if avg > 2/100 then (false, ⟨.ascending, m, hist⟩)
      else (false, ⟨.descending, m, hist⟩)
  | .bottom =>
      if avg > st.minDepthReached + 3/100 then
        (false, ⟨.ascending, st.minDepthReached, hist⟩)
      else (false, ⟨.bottom, st.minDepthReached, hist⟩)
  | .ascending =>
      if avg > 5/100 then
        if st.minDepthReached < -(8/100) then (true, initSquatState)
        else (false, initSquatState)
      else (false, ⟨.ascending, st.minDepthReached, hist⟩)

/-- Run the squat state machine over a list of raw hip-knee samples,
collecting the `completed` flag of every call. -/
def squatRun (st : SquatState) : List ℚ → List Bool × SquatState
  | [] => ([], st)
  | x :: xs =>
      let step := squatMachineStep st x
      let rest := squatRun step.2 xs
      (step.1 :: rest.1, rest.2)

/-- The smoothed signal observed at each call of a run. -/
def squatAvgTrace (st : SquatState) : List ℚ → List ℚ
  | [] => []
  | x :: xs => smoothedPosition st x :: squatAvgTrace (squatMachineStep st x).2 xs

/-- Raw samples of one full valid depth cycle:
standing, descending (smoothed 0 below +0.02), bottom (smoothed −1/6 below
−0.08), ascending, return above +0.05. -/
def fullCycleInputs : List ℚ := [1/10, -(1/10), -(1/2), 1/2, 1/2]

/-- Raw samples of a shallow cycle: the smoothed signal dips below +0.02
but never below −0.08 (minimum −1/40), then rises above +0.05. -/
def shallowCycleInputs : List ℚ := [0, -(1/20), 1/5, 3/10]

/-! ## Python landmark values and dynamic errors

Landmarks arrive as a Python list whose entries are expected to be dicts
with numeric `x`/`y` keys.  The detectors index into the list
(`IndexError` when out of range) and call `.get` on the entries
(`AttributeError` when the entry is not a dict).  The detector bodies are
wrapped in `except (KeyError, TypeError)` and the dispatcher in
`except (KeyError, IndexError, TypeError)`; an `AttributeError` is caught
by neither. -/

inductive PyErr where
  | keyError
  | indexError
  | typeError
  | attributeError
deriving DecidableEq, Repr

/-- A Python value appearing as a landmark entry: a dict with optional
numeric `y`/`x` keys (`extra` records whether it has further keys, which
only affects truthiness), `None`, or some non-dict value. -/
inductive PyVal where
  | vdict (y x : Option ℚ) (extra : Bool)
  | vnone
  | vother (truthy : Bool)
deriving DecidableEq, Repr

/-- Python truthiness: a dict is truthy iff non-empty; `None` is falsy. -/
def PyVal.truthy : PyVal → Bool
  | .vdict y x extra => y.isSome || x.isSome || extra
  | .vnone => false
  | .vother t => t

/-- `v.get('y', d)`: only dicts have a `.get` method. -/
def PyVal.getY (v : PyVal) (d : ℚ) : Except PyErr ℚ :=
  match v with
  | .vdict y _ _ => .ok (y.getD d)
  | _ => .error .attributeError

/-- `v.get('x', d)`: only dicts have a `.get` method. -/
def PyVal.getX (v : PyVal) (d : ℚ) : Except PyErr ℚ :=
  match v with
  | .vdict _ x _ => .ok (x.getD d)
  | _ => .error .attributeError

/-- `landmarks[i]`, raising `IndexError` when out of range. -/
def pyIndex (l : List PyVal) (i : ℕ) : Except PyErr PyVal :=
  match l.get? i with
  | some v => .ok v
  | none => .error .indexError

/-- Python float modulo with a positive modulus, used by the plank and
generic placeholder detectors (`time.time() % N`). -/
def pyMod (a b : ℚ) : ℚ := a - b * (⌊a / b⌋ : ℚ)

/-! ## The per-activity detectors (`realtime_coaching.py` lines 135-359) -/

/-- Body of `_detect_squat_completion` after the length guard: reads the
hip/knee/ankle landmarks, computes `hip_knee_diff`, lazily creates
`self._squat_detection_state`, and steps the state machine.  All landmark
reads happen before any state mutation, so on an error the state is
returned unchanged. -/
def squatDetectBody (lms : List PyVal) (stOpt : Option SquatState) :
    Except PyErr (Bool × Option SquatState) := do
  let leftHip ← pyIndex lms 23
  let rightHip ← pyIndex lms 24
  let leftKnee ← pyIndex lms 25
  let rightKnee ← pyIndex lms 26
  let leftAnkle := lms.getD 27 PyVal.vnone
  let rightAnkle := lms.getD 28 PyVal.vnone
  if !(leftAnkle.truthy && rightAnkle.truthy) then
    return (false, stOpt)
  let lhy ← leftHip.getY 0
  let rhy ← rightHip.getY 0
  let hipAvgY := (lhy + rhy) / 2
  let lky ← leftKnee.getY 0
  let rky ← rightKnee.getY 0
  let kneeAvgY := (lky + rky) / 2
  let lay ← leftAnkle.getY 0
  let ray ← rightAnkle.getY 0
  let _ankleAvgY := (lay + ray) / 2
  let hipKneeDiff := kneeAvgY - hipAvgY
  let st := stOpt.getD initSquatState
  let step := squatMachineStep st hipKneeDiff
  return (step.1, some step.2)

/-- `_detect_squat_completion`: length guard, body, and the inner
`except (KeyError, TypeError)` that logs and returns `False`. -/
def squatDetect (lms : List PyVal) (stOpt : Option SquatState) :
    Except PyErr (Bool × Option SquatState) :=
  if lms.length < 28 then .ok (false, stOpt)
  else
    match squatDetectBody lms stOpt with
    | .ok r => .ok r
    | .error e =>
        if e = .keyError || e = .typeError then .ok (false, stOpt) else .error e

/-- Body of `_detect_jumping_jack_completion`: arms up (both wrists above
their shoulders, with Python short-circuit evaluation) and legs together
(ankle separation at most 1.2 times hip separation). -/
def jjDetectBody (lms : List PyVal) : Except PyErr Bool := do
  let leftShoulder ← pyIndex lms 11
  let rightShoulder ← pyIndex lms 12
  let leftWrist ← pyIndex lms 15
  let rightWrist ← pyIndex lms 16
  let _leftHip ← pyIndex lms 23
  let _rightHip ← pyIndex lms 24
  let leftAnkle := lms.getD 27 PyVal.vnone
  let rightAnkle := lms.getD 28 PyVal.vnone
  if !(leftAnkle.truthy && rightAnkle.truthy) then
    return false
  let lwy ← leftWrist.getY 0
  let lsy ← leftShoulder.getY 0
  let armsUp ←
    if lwy < lsy then do
      let rwy ← rightWrist.getY 0
      let rsy ← rightShoulder.getY 0
      pure (decide (rwy < rsy))
    else pure false
  let lhx ← _leftHip.getX 0
  let rhx ← _rightHip.getX 0
  let hipDistance := |lhx - rhx|
  let lax ← leftAnkle.getX 0
  let rax ← rightAnkle.getX 0
  let ankleDistance := |lax - rax|
  let legsTogether := decide (ankleDistance ≤ hipDistance * (12/10))
  return (armsUp && legsTogether)

/-- `_detect_jumping_jack_completion`: length guard, body, inner
`except (KeyError, TypeError)`. -/
def jjDetect (lms : List PyVal) : Except PyErr Bool :=
  if lms.length < 20 then .ok false
  else
    match jjDetectBody lms with
    | .ok b => .ok b
    | .error e => if e = .keyError || e = .typeError then .ok false else .error e

/-- Body of `_detect_pushup_completion`: shoulders sufficiently above
wrists. -/
def pushupDetectBody (lms : List PyVal) : Except PyErr Bool := do
  let leftShoulder ← pyIndex lms 11
  let rightShoulder ← pyIndex lms 12
  let leftWrist ← pyIndex lms 15
  let rightWrist ← pyIndex lms 16
  let lsy ← leftShoulder.getY 0
  let rsy ← rightShoulder.getY 0
  let shoulderAvgY := (lsy + rsy) / 2
  let lwy ← leftWrist.getY 0
  let rwy ← rightWrist.getY 0
  let wristAvgY := (lwy + rwy) / 2
  return decide (wristAvgY - shoulderAvgY > 5/100)

/-- `_detect_pushup_completion`. -/
def pushupDetect (lms : List PyVal) : Except PyErr Bool :=
  if lms.length < 16 then .ok false
  else
    match pushupDetectBody lms with
    | .ok b => .ok b
    | .error e => if e = .keyError || e = .typeError then .ok false else .error e

/-- Body of `_detect_basketball_shot_completion`: wrists clearly below the
nose. -/
def basketballDetectBody (lms : List PyVal) : Except PyErr Bool := do
  let leftWrist ← pyIndex lms 15
  let rightWrist ← pyIndex lms 16
  let nose ← pyIndex lms 0
  let lwy ← leftWrist.getY 0
  let rwy ← rightWrist.getY 0
  let wristAvgY := (lwy + rwy) / 2
  let noseY ← nose.getY 0
  return decide (wristAvgY > noseY + 1/10)

/-- `_detect_basketball_shot_completion`. -/
def basketballDetect (lms : List PyVal) : Except PyErr Bool :=
  if lms.length < 16 then .ok false
  else
    match basketballDetectBody lms with
    | .ok b => .ok b
    | .error e => if e = .keyError || e = .typeError then .ok false else .error e

/-- Body of `_detect_swing_completion`: wrists near shoulder level. -/
def swingDetectBody (lms : List PyVal) : Except PyErr Bool := do
  let leftWrist ← pyIndex lms 15
  let rightWrist ← pyIndex lms 16
  let leftShoulder ← pyIndex lms 11
  let rightShoulder ← pyIndex lms 12
  let lsy ← leftShoulder.getY 0
  let rsy ← rightShoulder.getY 0
  let shoulderAvgY := (lsy + rsy) / 2
  let lwy ← leftWrist.getY 0
  let rwy ← rightWrist.getY 0
  let wristAvgY := (lwy + rwy) / 2
  return decide (|wristAvgY - shoulderAvgY| < 15/100)

/-- `_detect_swing_completion`. -/
def swingDetect (lms : List PyVal) : Except PyErr Bool :=
  if lms.length < 16 then .ok false
  else
    match swingDetectBody lms with
    | .ok b => .ok b
    | .error e => if e = .keyError || e = .typeError then .ok false else .error e

/-- Body of `_detect_plank_hold_completion`: straight body and the
wall-clock placeholder `time.time() % 10 < 1`. -/
def plankDetectBody (lms : List PyVal) (now : ℚ) : Except PyErr Bool := do
  let leftShoulder ← pyIndex lms 11
  let rightShoulder ← pyIndex lms 12
  let leftHip ← pyIndex lms 23
  let rightHip ← pyIndex lms 24
  let lsy ← leftShoulder.getY 0
  let rsy ← rightShoulder.getY 0
  let shoulderAvgY := (lsy + rsy) / 2
  let lhy ← leftHip.getY 0
  let rhy ← rightHip.getY 0
  let hipAvgY := (lhy + rhy) / 2
  let bodyStraight := decide (|shoulderAvgY - hipAvgY| < 1/10)
  return (bodyStraight && decide (pyMod now 10 < 1))

/-- `_detect_plank_hold_completion`. -/
def plankDetect (lms : List PyVal) (now : ℚ) : Except PyErr Bool :=
  if lms.length < 16 then .ok false
  else
    match plankDetectBody lms now with
    | .ok b => .ok b
    | .error e => if e = .keyError || e = .typeError then .ok false else .error e

/-- `_detect_generic_movement_completion`: wall-clock placeholder only. -/
def genericDetect (lms : List PyVal) (now : ℚ) : Except PyErr Bool :=
  if lms.length < 10 then .ok false
  else .ok (decide (pyMod now 8 < 1))

/-! ## Activity-name keyword matching and dispatch -/

/-- ASCII lowering of one character, as `str.lower()` does on ASCII. -/
def asciiToLower (c : Char) : Char :=
  if 65 ≤ c.toNat ∧ c.toNat ≤ 90 then Char.ofNat (c.toNat + 32) else c

/-- `activity_type.lower()`. -/
def pyLower (s : String) : String := ⟨s.data.map asciiToLower⟩

/-- Substring occurrence, as Python's `s.find(pat) != -1` / `pat in s`. -/
def hasSubstring (pat : List Char) : List Char → Bool
  | [] => pat.isEmpty
  | c :: rest => pat.isPrefixOf (c :: rest) || hasSubstring pat rest

/-- `pat in activity_type.lower()`. -/
def kwIn (pat act : String) : Bool := hasSubstring pat.data (pyLower act).data

/-- The detector family chosen by `detect_movement_completion`. -/
inductive DetectorKind where
  | squat
  | pushup
  | jumpingJack
  | basketball
  | swing
  | plank
  | generic
deriving DecidableEq, Repr

/-- The `if/elif` dispatch chain of `detect_movement_completion`
(`realtime_coaching.py` lines 114-128), in source order: squat, pushup,
jumping jack, basketball, tennis/golf, plank, else generic. -/
def detectDispatch (activity : String) : DetectorKind :=
  if kwIn "squat" activity then .squat
  else if kwIn "pushup" activity || kwIn "push-up" activity then .pushup
  else if kwIn "jumping jack" activity then .jumpingJack
  else if kwIn "basketball" activity then .basketball
  else if kwIn "tennis" activity || kwIn "golf" activity then .swing
  else if kwIn "plank" activity then .plank
  else .generic

/-! ## `detect_movement_completion` -/

/-- The `pose_data` argument: falsy, truthy but with no `landmarks` key,
or carrying a landmark list. -/
inductive PoseData where
  | noPose
  | noLandmarksKey
  | withLandmarks (lms : List PyVal)
deriving DecidableEq, Repr

/-- `pose_data.get('landmarks', [])` as used by the live-frame analyzer. -/
def PoseData.landmarksList : PoseData → List PyVal
  | .withLandmarks lms => lms
  | _ => []

instance {ε α : Type} [DecidableEq ε] [DecidableEq α] :
    DecidableEq (Except ε α) := fun a b =>
  match a, b with
  | .ok x, .ok y => decidable_of_iff (x = y) (by simp)
  | .error x, .error y => decidable_of_iff (x = y) (by simp)
  | .ok _, .error _ => isFalse (fun h => by cases h)
  | .error _, .ok _ => isFalse (fun h => by cases h)

/-- Outcome of one `detect_movement_completion` call: the returned value
(or an uncaught Python exception), whether the `except` branch logged its
warning, and the service-level squat detector state afterwards. -/
structure DetectOutcome where
  result : Except PyErr Bool
  warned : Bool
  squatState : Option SquatState
deriving DecidableEq, Repr

/-- `detect_movement_completion` (`realtime_coaching.py` lines 106-133):
early `False` on falsy/keyless pose data, dispatch on the activity name,
and `except (KeyError, IndexError, TypeError)` logging a warning and
returning `False`.  `AttributeError` escapes to the caller. -/
def detectMovementCompletion (pose : PoseData) (activity : String) (now : ℚ)
    (stOpt : Option SquatState) : DetectOutcome :=
  match pose with
  | .noPose => ⟨.ok false, false, stOpt⟩
  | .noLandmarksKey => ⟨.ok false, false, stOpt⟩
  | .withLandmarks lms =>
    let run : Except PyErr (Bool × Option SquatState) :=
      match detectDispatch activity with
      | .squat => squatDetect lms stOpt
      | .pushup => (pushupDetect lms).map (fun b => (b, stOpt))
      | .jumpingJack => (jjDetect lms).map (fun b => (b, stOpt))
      | .basketball => (basketballDetect lms).map (fun b => (b, stOpt))
      | .swing => (swingDetect lms).map (fun b => (b, stOpt))
      | .plank => (plankDetect lms now).map (fun b => (b, stOpt))
      | .generic => (genericDetect lms now).map (fun b => (b, stOpt))
    match run with
    | .ok br => ⟨.ok br.1, false, br.2⟩
    | .error e =>
        if e = .keyError || e = .indexError || e = .typeError then
          ⟨.ok false, true, stOpt⟩
        else ⟨.error e, false, stOpt⟩

/-! ## The coaching service state (`RealtimeCoachingService`)

The service object holds `self.last_coaching_time` (a per-user map of
wall-clock seconds), `self.user_states` (the per-user coaching dicts
created by `get_user_state`), and — crucially — the single service-level
squat detector state `self._squat_detection_state`. -/

/-- Values of the `coaching_phase` key used by `analyze_live_frame`. -/
inductive Phase where
  | intro
  | monitoring
  | feedback
deriving DecidableEq, Repr

/-- The per-user dict created by `get_user_state`, together with the keys
that `analyze_live_frame` adds later (modelled as `Option` fields, absent
on creation).  The `squatStateKey`/`lastSquatPosition`/
`squatDepthThreshold`/`positionHistoryKey` fields are created by
`get_user_state` but never read by any detector. -/
structure UserState where
  phase : String := "setup"
  repCount : ℕ := 0
  lastFeedback : Option String := none
  movementDetected : Bool := false
  squatStateKey : String := "standing"
  lastSquatPosition : Option ℚ := none
  squatDepthThreshold : ℚ := 8/100
  positionHistoryKey : List ℚ := []
  coachingPhase : Option Phase := none
  lastCoachingTimeMs : Option ℚ := none
  repsCompleted : Option ℕ := none
  lastIntroTime : Option ℚ := none
deriving DecidableEq, Repr

/-- The mutable state of the `RealtimeCoachingService` singleton. -/
structure ServiceState where
  lastCoachingTime : String → Option ℚ
  userStates : String → Option UserState
  squatDetectionState : Option SquatState

/-- A freshly constructed service. -/
def initServiceState : ServiceState := ⟨fun _ => none, fun _ => none, none⟩

/-- Store a user's coaching dict. -/
def setUser (svc : ServiceState) (userId : String) (st : UserState) :
    ServiceState :=
  { svc with userStates := fun u => if u = userId then some st else svc.userStates u }

/-- `get_user_state`: return the user's dict, creating it on first use. -/
def getUserState (svc : ServiceState) (userId : String) :
    UserState × ServiceState :=
  match svc.userStates userId with
  | some st => (st, svc)
  | none => ({}, setUser svc userId {})

/-- `get_coaching_interval` (`realtime_coaching.py` lines 18-59), in
seconds, by keyword chain over the lower-cased activity name. -/
def getCoachingInterval (activity : String) : ℚ :=
  if kwIn "plank" activity then 8
  else if kwIn "golf" activity then 5
  else if kwIn "tennis" activity then 4
  else if kwIn "basketball" activity then 3
  else if kwIn "squat" activity then 5/2
  else if kwIn "pushup" activity || kwIn "push-up" activity || kwIn "push up" activity then 5/2
  else if kwIn "jumping jack" activity then 5/2
  else if kwIn "wall sit" activity then 8
  else 3

/-- `should_provide_coaching` (`realtime_coaching.py` lines 61-73): inserts
a zero entry for unknown users, and when the interval has elapsed it
updates the user's last-coaching timestamp to `now` and returns `True`. -/
def shouldProvideCoaching (svc : ServiceState) (userId activity : String)
    (now : ℚ) : Bool × ServiceState :=
  let interval := getCoachingInterval activity
  let m0 : String → Option ℚ :=
    if (svc.lastCoachingTime userId).isNone then
      fun u => if u = userId then some 0 else svc.lastCoachingTime u
    else svc.lastCoachingTime
  let last := (m0 userId).getD 0
  if now - last ≥ interval then
    (true, { svc with lastCoachingTime := fun u => if u = userId then some now else m0 u })
  else
    (false, { svc with lastCoachingTime := m0 })

/-- `get_activity_feedback_strategy` (`realtime_coaching.py` lines
929-942). -/
def getActivityFeedbackStrategy (activity : String) : String :=
  if kwIn "plank" activity || kwIn "wall sit" activity then "continuous_hold"
  else if kwIn "golf" activity || kwIn "tennis" activity then "per_swing"
  else if kwIn "pushup" activity || kwIn "push-up" activity || kwIn "push up" activity
      || kwIn "squat" activity || kwIn "jumping jack" activity then "rep_groups"
  else if kwIn "basketball" activity then "per_attempt"
  else "general"

/-! ## `analyze_live_frame` (`realtime_coaching.py` lines 562-795) -/

/-- One outcome of `gemini_service.analyze_video_frame`: a returned
optional string, or a raised exception (which also stands for a
timeout). -/
inductive AIOutcome where
  | ret (r : Option String)
  | raise
deriving DecidableEq, Repr

/-- The response dict of `analyze_live_frame`; absent keys are `none`.
The `error`/`message` texts whose Python originals interpolate exception
strings or float formatting are abbreviated constants. -/
structure Result where
  success : Bool := false
  message : Option String := none
  errorText : Option String := none
  feedback : Option String := none
  rtype : Option String := none
  activity : Option String := none
  repCount : Option ℕ := none
  movementCompleted : Option Bool := none
  shouldProvideFeedback : Option Bool := none
  strategy : Option String := none
deriving DecidableEq, Repr

/-- One inbound live-frame event: the request context plus the wall-clock
time `nowSec` (seconds) at which the service processes it.  `timestampMs`
is the client timestamp in milliseconds from `context['timestamp']`. -/
structure Event where
  userId : String
  activity : String
  timestampMs : ℚ
  pose : PoseData
  nowSec : ℚ

/-- The deterministic fallback string of the rep-completed `except` branch:
`f"Rep (n) complete! Keep going!"` with the current rep count spliced
in. -/
def repFallbackFeedback (n : ℕ) : String :=
  "Rep " ++ toString n ++ " complete! Keep going!"

/-- The exact-name list of activities for which the monitoring phase never
produces continuous feedback (`realtime_coaching.py` line 700). -/
def squatMonitoringActivities : List String :=
  ["squat", "squat form check", "pushup", "push-up technique"]

/-- `len(s.strip()) > 0`: the string has a non-whitespace character. -/
def pyStripNonempty (s : String) : Bool := s.data.any (fun c => !c.isWhitespace)

/-- The intro/monitoring tail of `analyze_live_frame` (lines 643-785),
reached when no rep completed or when the rep-completed AI call returned
falsy text and fell through.  `coachingPhase`, `lastCoachingTimeMs` and
`currentRepCount` are the Python locals read before the rep update; `us`
is the current (possibly already updated) user dict. -/
def analyzeTail (svc : ServiceState) (ev : Event) (us : UserState)
    (coachingPhase : Phase) (lastCoachingTimeMs : ℚ) (currentRepCount : ℕ)
    (o : AIOutcome) : Result × ServiceState :=
  match coachingPhase with
  | .intro =>
      match o with
      | .raise =>
          let us1 := { us with coachingPhase := some .monitoring,
                               lastCoachingTimeMs := some ev.timestampMs }
          ({ success := false,
             message := some "AI intro failed, proceeding to monitoring",
             repCount := some currentRepCount, movementCompleted := some false,
             shouldProvideFeedback := some false }, setUser svc ev.userId us1)
      | .ret r =>
          if (r.getD "") ≠ "" then
            let us1 := { us with coachingPhase := some .monitoring,
                                 lastIntroTime := some ev.timestampMs,
                                 lastCoachingTimeMs := some ev.timestampMs }
            ({ success := true, feedback := r, rtype := some "ai_intro",
               activity := some ev.activity, repCount := some currentRepCount,
               movementCompleted := some false,
               shouldProvideFeedback := some true }, setUser svc ev.userId us1)
          else
            ({ success := false, message := some "No coaching needed at this time",
               repCount := some currentRepCount, movementCompleted := some false,
               shouldProvideFeedback := some false }, svc)
  | .monitoring =>
      let timeSinceLast := ev.timestampMs - lastCoachingTimeMs
      let feedbackStrategy := getActivityFeedbackStrategy ev.activity
      let minInterval := getCoachingInterval ev.activity * 1000
      if pyLower ev.activity ∈ squatMonitoringActivities then
        ({ success := true,
           message := some ("Monitoring " ++ ev.activity ++ " form - "
             ++ toString currentRepCount ++ " reps completed"),
           repCount := some currentRepCount, movementCompleted := some false,
           shouldProvideFeedback := some false }, svc)
      else if timeSinceLast < minInterval then
        ({ success := false,
           message := some "Monitoring form - next feedback pending",
           repCount := some currentRepCount, movementCompleted := some false,
           shouldProvideFeedback := some false }, svc)
      else
        match o with
        | .raise =>
            ({ success := false, errorText := some "AI analysis failed",
               repCount := some currentRepCount, movementCompleted := some false,
               shouldProvideFeedback := some false }, svc)
        | .ret r =>
            if (r.getD "") ≠ "" && pyStripNonempty (r.getD "") then
              let us1 := { us with lastFeedback := r,
                                   lastCoachingTimeMs := some ev.timestampMs }
              ({ success := true, feedback := r, rtype := some "ai_analysis",
                 activity := some ev.activity, repCount := some currentRepCount,
                 movementCompleted := some false, shouldProvideFeedback := some true,
                 strategy := some feedbackStrategy }, setUser svc ev.userId us1)
            else
              ({ success := false,
                 message := some "AI analysis returned no feedback",
                 repCount := some currentRepCount, movementCompleted := some false,
                 shouldProvideFeedback := some false }, svc)
  | .feedback =>
      ({ success := false, message := some "No coaching needed at this time",
         repCount := some currentRepCount, movementCompleted := some false,
         shouldProvideFeedback := some false }, svc)

/-- `analyze_live_frame` (`realtime_coaching.py` lines 562-795).  `oracle`
gives the outcome of the n-th `gemini_service.analyze_video_frame` call of
this event (a second call happens only when a completed rep's AI feedback
came back falsy and control fell through to the intro/monitoring logic).
The outer `except Exception` catches the `AttributeError` that
`detect_movement_completion` lets escape on malformed landmark entries. -/
def analyzeLiveFrame (svc : ServiceState) (ev : Event)
    (oracle : ℕ → AIOutcome) : Result × ServiceState :=
  let gate := shouldProvideCoaching svc ev.userId ev.activity ev.nowSec
  if gate.1 = false then
    ({ success := false, message := some "Coaching rate limited" }, gate.2)
  else
    let us := (getUserState gate.2 ev.userId).1
    let svc2 := (getUserState gate.2 ev.userId).2
    let lms := ev.pose.landmarksList
    let det : DetectOutcome :=
      if 0 < lms.length then
        detectMovementCompletion ev.pose ev.activity ev.nowSec
          svc2.squatDetectionState
      else ⟨.ok false, false, svc2.squatDetectionState⟩
    let svc3 := { svc2 with squatDetectionState := det.squatState }
    match det.result with
    | .error _ =>
        ({ success := false, errorText := some "live frame analysis error",
           repCount := some 0, movementCompleted := some false,
           shouldProvideFeedback := some false }, svc3)
    | .ok movementCompleted =>
        let coachingPhase := us.coachingPhase.getD .intro
        let lastCoachingTimeMs := us.lastCoachingTimeMs.getD 0
        let currentRepCount := us.repsCompleted.getD 0
        if movementCompleted then
          let n := currentRepCount + 1
          let us1 := { us with repsCompleted := some n,
                               coachingPhase := some .feedback,
                               lastCoachingTimeMs := some ev.timestampMs }
          let svc4 := setUser svc3 ev.userId us1
          match oracle 0 with
          | .raise =>
              ({ success := true, feedback := some (repFallbackFeedback n),
                 rtype := some "rep_completed", activity := some ev.activity,
                 repCount := some n, movementCompleted := some true,
                 shouldProvideFeedback := some true }, svc4)
          | .ret r =>
              if (r.getD "") ≠ "" then
                ({ success := true, feedback := r, rtype := some "rep_completed",
                   activity := some ev.activity, repCount := some n,
                   movementCompleted := some true,
                   shouldProvideFeedback := some true }, svc4)
              else
                analyzeTail svc4 ev us1 coachingPhase lastCoachingTimeMs n (oracle 1)
        else
          analyzeTail svc3 ev us coachingPhase lastCoachingTimeMs currentRepCount
            (oracle 0)

/-- Process a sequence of inbound events, each with its own oracle. -/
def runEvents (svc : ServiceState) : List (Event × (ℕ → AIOutcome)) → ServiceState
  | [] => svc
  | p :: rest => runEvents (analyzeLiveFrame svc p.1 p.2).2 rest

/-- The `reps_completed` counter of a user (0 when absent). -/
def repsOf (svc : ServiceState) (userId : String) : ℕ :=
  (((svc.userStates userId).getD {}).repsCompleted).getD 0

/-- Whether this event's movement detection runs and returns
`completed=True`: the rate gate passes, the landmark list is non-empty,
and the dispatched detector reports a completed movement against the
current shared squat detector state. -/
def movementCompletedOn (svc : ServiceState) (ev : Event) : Bool :=
  (shouldProvideCoaching svc ev.userId ev.activity ev.nowSec).1 &&
    0 < ev.pose.landmarksList.length &&
    (detectMovementCompletion ev.pose ev.activity ev.nowSec
        svc.squatDetectionState).result = .ok true

/-! ## Concrete landmark lists and scenarios -/

/-- An ordinary landmark entry: a dict with `y = 0`. -/
def dLm : PyVal := .vdict (some 0) none false

/-- A 29-entry landmark list for the squat detector with the given
hip and knee heights (indices 23-26) and truthy ankle dicts (27-28). -/
def mkSquatLms (hipY kneeY : ℚ) : List PyVal :=
  [dLm, dLm, dLm, dLm, dLm, dLm, dLm, dLm, dLm, dLm, dLm, dLm, dLm, dLm,
   dLm, dLm, dLm, dLm, dLm, dLm, dLm, dLm, dLm,
   .vdict (some hipY) none false, .vdict (some hipY) none false,
   .vdict (some kneeY) none false, .vdict (some kneeY) none false,
   .vdict (some 0) none false, .vdict (some 0) none false]

/-- A 29-entry landmark list whose left-hip entry (index 23) is `None`
rather than a dict: `.get` on it raises `AttributeError`. -/
def badSquatLms : List PyVal :=
  [dLm, dLm, dLm, dLm, dLm, dLm, dLm, dLm, dLm, dLm, dLm, dLm, dLm, dLm,
   dLm, dLm, dLm, dLm, dLm, dLm, dLm, dLm, dLm,
   .vnone, dLm, dLm, dLm, dLm, dLm]

/-- A 29-entry landmark list for the jumping-jack detector with the given
shoulder/wrist heights and hip/ankle horizontal positions. -/
def mkJJLms (lsy rsy lwy rwy lhx rhx lax rax : ℚ) : List PyVal :=
  [dLm, dLm, dLm, dLm, dLm, dLm, dLm, dLm, dLm, dLm, dLm,
   .vdict (some lsy) none false, .vdict (some rsy) none false, dLm, dLm,
   .vdict (some lwy) none false, .vdict (some rwy) none false,
   dLm, dLm, dLm, dLm, dLm, dLm,
   .vdict none (some lhx) false, .vdict none (some rhx) false, dLm, dLm,
   .vdict none (some lax) false, .vdict none (some rax) false]

/-- Statement-side description of the jumping-jack `arms_up` feature:
both wrists strictly above (smaller image-y than) their shoulders. -/
def specJJArmsUp (lsy rsy lwy rwy : ℚ) : Bool :=
  decide (lwy < lsy) && decide (rwy < rsy)

/-- Statement-side description of the jumping-jack `legs_together`
feature: ankle separation at most 1.2 times hip separation. -/
def specJJLegsTogether (lhx rhx lax rax : ℚ) : Bool :=
  decide (|lax - rax| ≤ |lhx - rhx| * (12/10))

/-- Statement-side description of the condition under which the code's
jumping-jack detector reports a completion. -/
def specJJCompleted (lsy rsy lwy rwy lhx rhx lax rax : ℚ) : Bool :=
  specJJArmsUp lsy rsy lwy rwy && specJJLegsTogether lhx rhx lax rax

/-- A shared squat detector state in mid-cycle: ascending after a deep
bottom (minimum −1/2). -/
def ascendingSquatState : SquatState :=
  ⟨.ascending, -(1/2), [-(1/2), -(1/2), 3/2]⟩

/-- A pose whose landmarks complete a squat from `ascendingSquatState`:
hip-knee difference 3/2, pushing the smoothed signal to 1/2. -/
def completingPose : PoseData := .withLandmarks (mkSquatLms 0 (3/2))

/-- A service whose user `alice` was last coached at wall-clock 100 s and
whose shared squat state is mid-cycle. -/
def gatedSvc : ServiceState :=
  { lastCoachingTime := fun u => if u = "alice" then some 100 else none,
    userStates := fun _ => none,
    squatDetectionState := some ascendingSquatState }

/-- An event for `alice` one second after her last coaching (inside the
2.5 s squat interval) whose landmarks would complete a squat. -/
def gatedEv : Event :=
  { userId := "alice", activity := "squat", timestampMs := 101000,
    pose := completingPose, nowSec := 101 }

/-- A fresh service (no rate-gate history, no user dicts) whose shared
squat detector state is mid-cycle. -/
def readySvc : ServiceState :=
  { lastCoachingTime := fun _ => none, userStates := fun _ => none,
    squatDetectionState := some ascendingSquatState }

/-- A first event for `alice` that passes the rate gate and whose
landmarks complete a squat from `ascendingSquatState`. -/
def readyEv : Event :=
  { userId := "alice", activity := "squat", timestampMs := 100000,
    pose := completingPose, nowSec := 100 }

/-- A user dict in the monitoring phase, last coached at timestamp 0. -/
def monitoringUser : UserState :=
  { coachingPhase := some .monitoring, lastCoachingTimeMs := some 0 }

/-- A service with `alice` in the monitoring phase and no rate-gate
history. -/
def monitoringSvc : ServiceState :=
  { lastCoachingTime := fun _ => none,
    userStates := fun u => if u = "alice" then some monitoringUser else none,
    squatDetectionState := none }

/-- A monitoring-phase jumping-jack event for `alice`, well past every
rate gate. -/
def monitoringEv : Event :=
  { userId := "alice", activity := "jumping jack", timestampMs := 100000,
    pose := .noPose, nowSec := 100 }

/-- A monitoring-phase jumping-jack event for `alice` whose landmarks are
in the raised pose, so the stateless jumping-jack detector completes. -/
def jjMonitoringEv : Event :=
  { userId := "alice", activity := "jumping jack", timestampMs := 100000,
    pose := .withLandmarks (mkJJLms (1/2) (1/2) (1/5) (1/5) (2/5) (3/5) (9/20) (11/20)),
    nowSec := 100 }

/-- An oracle whose first AI call returns the empty string and whose
second call returns coaching text. -/
def emptyThenTextOracle : ℕ → AIOutcome :=
  fun n => if n = 0 then .ret (some "") else .ret (some "Nice pace!")

/-- An oracle whose AI calls all return `None`. -/
def noneOracle : ℕ → AIOutcome := fun _ => .ret none

/-- An oracle whose AI calls all raise. -/
def raiseOracle : ℕ → AIOutcome := fun _ => .raise

/-- An oracle whose AI calls all return the empty string. -/
def emptyOracle : ℕ → AIOutcome := fun _ => .ret (some "")

/-- A squat event for `alice` at wall-clock `t` seconds with the given
hip and knee heights. -/
def aliceSquatEv (t hipY kneeY : ℚ) : Event :=
  { userId := "alice", activity := "squat", timestampMs := t * 1000,
    pose := .withLandmarks (mkSquatLms hipY kneeY), nowSec := t }

/-- A first-ever squat event for `bob` whose landmarks ascend past the
standing threshold. -/
def bobSquatEv : Event :=
  { userId := "bob", activity := "squat", timestampMs := 107000,
    pose := .withLandmarks (mkSquatLms 0 (3/2)), nowSec := 107 }

/-- The service after `alice` alone performed the descent and ascent of a
deep squat (three events, three seconds apart in wall-clock time, each
passing the rate gate). -/
def svcAfterAlice : ServiceState :=
  runEvents initServiceState
    [(aliceSquatEv 100 (1/2) 0, noneOracle),
     (aliceSquatEv 103 (1/2) 0, noneOracle),
     (aliceSquatEv 106 0 (3/2), noneOracle)]

/-! ## Helper lemmas about the squat state machine -/

theorem squatMachineStep_completed_iff (st : SquatState) (x : ℚ) :
    (squatMachineStep st x).1 = true ↔
      st.currentState = .ascending ∧ st.minDepthReached < -(8/100) ∧
        smoothedPosition st x > 5/100 := by
  obtain ⟨cs, m, h⟩ := st
  cases cs <;> simp [squatMachineStep, smoothedPosition] <;> split_ifs <;> simp_all

theorem squatMachineStep_completed_reset (st : SquatState) (x : ℚ)
    (hc : (squatMachineStep st x).1 = true) :
    (squatMachineStep st x).2 = initSquatState := by
  obtain ⟨cs, m, h⟩ := st
  cases cs <;> simp [squatMachineStep] at hc ⊢ <;> split_ifs at hc ⊢ <;> simp_all

theorem squatMachineStep_discard (st : SquatState) (x : ℚ)
    (hc : st.currentState = .ascending) (hm : ¬ st.minDepthReached < -(8/100))
    (ha : smoothedPosition st x > 5/100) :
    squatMachineStep st x = (false, initSquatState) := by
  obtain ⟨cs, m, h⟩ := st
  cases cs <;> simp_all [squatMachineStep, smoothedPosition]

theorem squatMachineStep_min_inv (st : SquatState) (x : ℚ)
    (hm : -(8/100) ≤ st.minDepthReached) (ha : -(8/100) ≤ smoothedPosition st x) :
    -(8/100) ≤ (squatMachineStep st x).2.minDepthReached := by
  obtain ⟨cs, m, h⟩ := st
  cases cs <;> simp_all [squatMachineStep, smoothedPosition, initSquatState] <;>
    split_ifs <;> simp_all <;> norm_num

theorem squat_shallow_aux (xs : List ℚ) : ∀ (st : SquatState),
    -(8/100) ≤ st.minDepthReached →
    (∀ a ∈ squatAvgTrace st xs, -(8/100) ≤ a) →
    (squatRun st xs).1 = List.replicate xs.length false := by
  induction xs with
  | nil => intro st _ _; rfl
  | cons x xs ih =>
    intro st hm h
    have havg : -(8/100) ≤ smoothedPosition st x := h _ (by simp [squatAvgTrace])
    have htail : ∀ a ∈ squatAvgTrace (squatMachineStep st x).2 xs, -(8/100) ≤ a := by
      intro a ha; exact h a (by simp [squatAvgTrace, ha])
    have hb : (squatMachineStep st x).1 = false := by
      rw [← Bool.not_eq_true, squatMachineStep_completed_iff]
      rintro ⟨-, h1, -⟩; exact absurd h1 (not_lt.mpr hm)
    have hrest := ih (squatMachineStep st x).2 (squatMachineStep_min_inv st x hm havg) htail
    simp [squatRun, hb, hrest, List.replicate_succ]

/-! ## Claim theorems -/

/-- C1: a landmark sequence that drives the smoothed hip-knee signal
through one full cycle (below +0.02, then below −0.08, then ascending
above +0.05 with `minDepthReached` below −0.08) makes the depth detector
return `completed=true` exactly once — a call returns `true` precisely at
the ascending-to-standing transition with sufficient depth, that call
resets the state to standing/0/empty history, and the concrete full-cycle
run returns `true` only on its final call and ends in the reset state. -/
theorem squat_full_cycle_completes_exactly_once :
    (∀ (st : SquatState) (x : ℚ),
        ((squatMachineStep st x).1 = true ↔
          st.currentState = .ascending ∧ st.minDepthReached < -(8/100) ∧
            smoothedPosition st x > 5/100) ∧
        ((squatMachineStep st x).1 = true →
          (squatMachineStep st x).2 = initSquatState)) ∧
    squatRun initSquatState fullCycleInputs
      = ([false, false, false, false, true], initSquatState) := by
  refine ⟨fun st x => ⟨squatMachineStep_completed_iff st x,
    squatMachineStep_completed_reset st x⟩, ?_⟩
  norm_num [squatRun, squatMachineStep, pushHistory, smoothedPosition,
    fullCycleInputs, initSquatState]

theorem squat_full_cycle_completes_exactly_once_witness :
    (squatMachineStep ⟨.ascending, -(1/2), []⟩ (1/2)).2 = initSquatState := by
  apply (squat_full_cycle_completes_exactly_once.1 ⟨.ascending, -(1/2), []⟩ (1/2)).2
  norm_num [squatMachineStep, pushHistory, smoothedPosition]

/-- C2: a landmark sequence whose smoothed signal never drops below −0.08
yields `completed=false` on every call, and a shallow cycle ends with the
detector state reset to standing with `minDepthReached=0` and empty
history: the discard transition resets in general, and the concrete
shallow cycle returns all `false` and ends in the reset state. -/
theorem squat_shallow_cycle_never_completes :
    (∀ xs : List ℚ,
        (∀ a ∈ squatAvgTrace initSquatState xs, -(8/100) ≤ a) →
        (squatRun initSquatState xs).1 = List.replicate xs.length false) ∧
    (∀ (st : SquatState) (x : ℚ),
        st.currentState = .ascending → ¬ st.minDepthReached < -(8/100) →
        smoothedPosition st x > 5/100 →
        squatMachineStep st x = (false, initSquatState)) ∧
    squatRun initSquatState shallowCycleInputs
      = (List.replicate 4 false, initSquatState) := by
  refine ⟨fun xs h => squat_shallow_aux xs initSquatState (by norm_num [initSquatState]) h,
    squatMachineStep_discard, ?_⟩
  norm_num [squatRun, squatMachineStep, pushHistory, smoothedPosition,
    shallowCycleInputs, initSquatState, List.replicate]

theorem squat_shallow_cycle_never_completes_witness :
    (squatRun initSquatState shallowCycleInputs).1 = List.replicate 4 false := by
  have h := squat_shallow_cycle_never_completes.1 shallowCycleInputs
    (by norm_num [squatAvgTrace, squatMachineStep, pushHistory, smoothedPosition,
      shallowCycleInputs, initSquatState])
  simpa [shallowCycleInputs] using h

/-! ## Helper lemmas about the coaching service -/

theorem spc_userStates (svc : ServiceState) (u a : String) (t : ℚ) :
    (shouldProvideCoaching svc u a t).2.userStates = svc.userStates := by
  unfold shouldProvideCoaching
  dsimp only
  split_ifs <;> rfl

theorem spc_squatState (svc : ServiceState) (u a : String) (t : ℚ) :
    (shouldProvideCoaching svc u a t).2.squatDetectionState
      = svc.squatDetectionState := by
  unfold shouldProvideCoaching
  dsimp only
  split_ifs <;> rfl

theorem spc_true_sets (svc : ServiceState) (u a : String) (t : ℚ)
    (h : (shouldProvideCoaching svc u a t).1 = true) :
    (shouldProvideCoaching svc u a t).2.lastCoachingTime u = some t := by
  simp only [shouldProvideCoaching] at h ⊢
  split_ifs at h ⊢ <;> simp_all

theorem getUserState_squatState (svc : ServiceState) (u : String) :
    (getUserState svc u).2.squatDetectionState = svc.squatDetectionState := by
  unfold getUserState setUser
  cases h : svc.userStates u <;> simp [h]

theorem getUserState_stored (svc : ServiceState) (u : String) :
    (getUserState svc u).2.userStates u = some (getUserState svc u).1 := by
  unfold getUserState setUser
  cases h : svc.userStates u <;> simp [h]

theorem getUserState_of_some (svc : ServiceState) (u : String) (st : UserState)
    (h : svc.userStates u = some st) : getUserState svc u = (st, svc) := by
  unfold getUserState; rw [h]

theorem getUserState_reps (svc : ServiceState) (u : String) :
    ((getUserState svc u).1).repsCompleted.getD 0 = repsOf svc u := by
  unfold getUserState repsOf
  cases h : svc.userStates u <;> simp [h]

theorem repsOf_eq_of_userStates (svc svc2 : ServiceState) (u : String)
    (h : svc2.userStates = svc.userStates) : repsOf svc2 u = repsOf svc u := by
  unfold repsOf; rw [h]

theorem getUserState_repsOf_all (svc : ServiceState) (u v : String) :
    repsOf (getUserState svc u).2 v = repsOf svc v := by
  unfold getUserState setUser repsOf
  cases h : svc.userStates u <;> by_cases hv : v = u <;> simp [h, hv]

theorem setUser_repsOf_self (svc : ServiceState) (u : String) (st : UserState) :
    repsOf (setUser svc u st) u = st.repsCompleted.getD 0 := by
  unfold setUser repsOf; simp

theorem setUser_repsOf_ne (svc : ServiceState) (u v : String) (st : UserState)
    (h : v ≠ u) : repsOf (setUser svc u st) v = repsOf svc v := by
  unfold setUser repsOf; simp [h]

theorem analyzeTail_repsOf (svc : ServiceState) (ev : Event) (us : UserState)
    (ph : Phase) (lt : ℚ) (n : ℕ) (o : AIOutcome) (u : String)
    (h : ((svc.userStates ev.userId).getD {}).repsCompleted = us.repsCompleted) :
    repsOf (analyzeTail svc ev us ph lt n o).2 u = repsOf svc u := by
  have key : ∀ us1 : UserState, us1.repsCompleted = us.repsCompleted →
      repsOf (setUser svc ev.userId us1) u = repsOf svc u := by
    intro us1 h1
    unfold repsOf setUser
    by_cases hu : u = ev.userId
    · subst hu; simp [h1, h]
    · simp [hu]
  unfold analyzeTail
  rcases ph <;> rcases o with r | _ <;> dsimp only <;> (try split_ifs) <;>
    first
    | rfl
    | exact key _ rfl

/-- The rep counter's update equation for one `analyze_live_frame` call:
the event's user gains exactly one rep iff the movement detection ran and
returned `completed=True`, every other user's counter is untouched, and
(the right-hand side not mentioning the oracle) the update is independent
of the AI call's outcome. -/
theorem analyzeLiveFrame_reps (svc : ServiceState) (ev : Event) (oracle : ℕ → AIOutcome) :
    repsOf (analyzeLiveFrame svc ev oracle).2 ev.userId
      = repsOf svc ev.userId + (if movementCompletedOn svc ev then 1 else 0) ∧
    ∀ u : String, u ≠ ev.userId →
      repsOf (analyzeLiveFrame svc ev oracle).2 u = repsOf svc u := by
  simp only [analyzeLiveFrame]
  set g := shouldProvideCoaching svc ev.userId ev.activity ev.nowSec with hg
  set us := (getUserState g.2 ev.userId).1 with hus
  set s2 := (getUserState g.2 ev.userId).2 with hs2
  have hsq : s2.squatDetectionState = svc.squatDetectionState := by
    rw [hs2, getUserState_squatState, hg, spc_squatState]
  have hr2 : ∀ v, repsOf s2 v = repsOf svc v := by
    intro v
    rw [hs2, getUserState_repsOf_all, hg, repsOf_eq_of_userStates _ _ _ (spc_userStates _ _ _ _)]
  have husreps : us.repsCompleted.getD 0 = repsOf svc ev.userId := by
    rw [hus, getUserState_reps, hg, repsOf_eq_of_userStates _ _ _ (spc_userStates _ _ _ _)]
  have hstored : s2.userStates ev.userId = some us := by
    rw [hs2, hus]; exact getUserState_stored _ _
  by_cases hgate : g.1 = false
  · have hmc : movementCompletedOn svc ev = false := by
      simp [movementCompletedOn, ← hg, hgate]
    have hrg : ∀ v, repsOf g.2 v = repsOf svc v := by
      intro v
      rw [hg, repsOf_eq_of_userStates _ _ _ (spc_userStates _ _ _ _)]
    simp [hgate, hmc, hrg]
  · have hgt : g.1 = true := by revert hgate; cases g.1 <;> simp
    rw [hsq]
    simp only [hgt, Bool.true_eq_false, if_false]
    set d := detectMovementCompletion ev.pose ev.activity ev.nowSec
      svc.squatDetectionState with hd
    by_cases hl : 0 < ev.pose.landmarksList.length
    · simp only [if_pos hl]
      cases hdr : d.result with
      | error e =>
          have hmc : movementCompletedOn svc ev = false := by
            simp [movementCompletedOn, ← hg, hgt, ← hd, hdr]
          simp only [hdr, hmc]
          exact ⟨by simpa using hr2 ev.userId, fun u _ => by simpa using hr2 u⟩
      | ok b =>
          cases b with
          | false =>
              have hmc : movementCompletedOn svc ev = false := by
                simp [movementCompletedOn, ← hg, hgt, ← hd, hdr]
              simp only [hdr, hmc]
              refine ⟨?_, fun u _ => ?_⟩
              · exact (analyzeTail_repsOf _ _ _ _ _ _ _ _ (by simp [hstored])).trans
                  ((hr2 ev.userId).trans (by simp))
              · exact (analyzeTail_repsOf _ _ _ _ _ _ _ _ (by simp [hstored])).trans (hr2 u)
          | true =>
              have hmc : movementCompletedOn svc ev = true := by
                simp [movementCompletedOn, ← hg, hgt, hl, ← hd, hdr]
              simp only [hdr, hmc, if_true]
              cases ho : oracle 0 with
              | raise =>
                  refine ⟨?_, fun u hu => ?_⟩
                  · exact (setUser_repsOf_self _ _ _).trans (by simp [husreps])
                  · exact (setUser_repsOf_ne _ _ _ _ hu).trans (hr2 u)
              | ret r =>
                  dsimp only
                  split_ifs with hr
                  · refine ⟨?_, fun u hu => ?_⟩
                    · exact (setUser_repsOf_self _ _ _).trans (by simp [husreps])
                    · exact (setUser_repsOf_ne _ _ _ _ hu).trans (hr2 u)
                  · refine ⟨?_, fun u hu => ?_⟩
                    · refine (analyzeTail_repsOf _ _ _ _ _ _ _ _ (by simp [setUser])).trans ?_
                      exact (setUser_repsOf_self _ _ _).trans (by simp [husreps])
                    · refine (analyzeTail_repsOf _ _ _ _ _ _ _ _ (by simp [setUser])).trans ?_
                      exact (setUser_repsOf_ne _ _ _ _ hu).trans (hr2 u)
    · have hmc : movementCompletedOn svc ev = false := by
        simp [movementCompletedOn, ← hg, hgt, hl]
      simp only [if_neg hl, hmc]
      refine ⟨?_, fun u _ => ?_⟩
      · exact (analyzeTail_repsOf _ _ _ _ _ _ _ _ (by simp [hstored])).trans
          ((hr2 ev.userId).trans (by simp))
      · exact (analyzeTail_repsOf _ _ _ _ _ _ _ _ (by simp [hstored])).trans (hr2 u)

theorem runEvents_repsOf_mono :
    ∀ (evs : List (Event × (ℕ → AIOutcome))) (svc : ServiceState) (u : String),
      repsOf svc u ≤ repsOf (runEvents svc evs) u := by
  intro evs
  induction evs with
  | nil => intro svc u; exact le_refl _
  | cons p rest ih =>
    intro svc u
    simp only [runEvents]
    refine le_trans ?_ (ih (analyzeLiveFrame svc p.1 p.2).2 u)
    by_cases hu : u = p.1.userId
    · subst hu
      rw [(analyzeLiveFrame_reps svc p.1 p.2).1]
      exact Nat.le_add_right _ _
    · rw [(analyzeLiveFrame_reps svc p.1 p.2).2 u hu]

theorem rate_limited_skips_everything (svc : ServiceState) (ev : Event)
    (oracle : ℕ → AIOutcome)
    (h : (shouldProvideCoaching svc ev.userId ev.activity ev.nowSec).1 = false) :
    (analyzeLiveFrame svc ev oracle).1
        = { success := false, message := some "Coaching rate limited" } ∧
    (analyzeLiveFrame svc ev oracle).2.userStates = svc.userStates ∧
    (analyzeLiveFrame svc ev oracle).2.squatDetectionState
        = svc.squatDetectionState := by
  refine ⟨?_, ?_, ?_⟩ <;> simp only [analyzeLiveFrame, h, if_pos] <;>
    first
    | rfl
    | exact spc_userStates _ _ _ _
    | exact spc_squatState _ _ _ _

/-- Evaluation of the monitoring tail on a falsy (empty-string) AI
response: the interval passed but the response carries no feedback. -/
theorem analyzeTail_monitoring_empty (svc : ServiceState) (ev : Event)
    (us : UserState) (lt : ℚ) (n : ℕ)
    (hact : pyLower ev.activity ∉ squatMonitoringActivities)
    (hint : ¬(ev.timestampMs - lt < getCoachingInterval ev.activity * 1000)) :
    analyzeTail svc ev us .monitoring lt n (.ret (some ""))
      = ({ success := false, message := some "AI analysis returned no feedback",
           repCount := some n, movementCompleted := some false,
           shouldProvideFeedback := some false }, svc) := by
  simp only [analyzeTail]
  rw [if_neg hact, if_neg hint]
  simp

/-- Evaluation of the monitoring tail on a truthy AI response: the AI
text is returned verbatim with `should_provide_feedback=True`. -/
theorem analyzeTail_monitoring_text (svc : ServiceState) (ev : Event)
    (us : UserState) (lt : ℚ) (n : ℕ) (s : String)
    (hact : pyLower ev.activity ∉ squatMonitoringActivities)
    (hint : ¬(ev.timestampMs - lt < getCoachingInterval ev.activity * 1000))
    (h8 : ¬(s = "")) (h9 : pyStripNonempty s = true) :
    analyzeTail svc ev us .monitoring lt n (.ret (some s))
      = ({ success := true, feedback := some s, rtype := some "ai_analysis",
           activity := some ev.activity, repCount := some n,
           movementCompleted := some false, shouldProvideFeedback := some true,
           strategy := some (getActivityFeedbackStrategy ev.activity) },
         setUser svc ev.userId
           { us with lastFeedback := some s,
                     lastCoachingTimeMs := some ev.timestampMs }) := by
  simp only [analyzeTail]
  rw [if_neg hact, if_neg hint]
  simp [h8, h9]

/-- When the AI call raises on a completed rep, the deterministic
fallback string is returned with `should_provide_feedback=True`. -/
theorem completed_rep_exception_gets_fallback (svc : ServiceState) (ev : Event)
    (oracle : ℕ → AIOutcome)
    (h1 : movementCompletedOn svc ev = true) (h2 : oracle 0 = .raise) :
    (analyzeLiveFrame svc ev oracle).1.shouldProvideFeedback = some true ∧
    (analyzeLiveFrame svc ev oracle).1.feedback
        = some (repFallbackFeedback (repsOf svc ev.userId + 1)) ∧
    (analyzeLiveFrame svc ev oracle).1.repCount
        = some (repsOf svc ev.userId + 1) := by
  simp only [movementCompletedOn, Bool.and_eq_true, decide_eq_true_eq] at h1
  obtain ⟨⟨hgt, hl⟩, hdr⟩ := h1
  simp only [analyzeLiveFrame]
  set g := shouldProvideCoaching svc ev.userId ev.activity ev.nowSec with hg
  set us := (getUserState g.2 ev.userId).1 with hus
  set s2 := (getUserState g.2 ev.userId).2 with hs2
  have hsq : s2.squatDetectionState = svc.squatDetectionState := by
    rw [hs2, getUserState_squatState, hg, spc_squatState]
  have husreps : us.repsCompleted.getD 0 = repsOf svc ev.userId := by
    rw [hus, getUserState_reps, hg, repsOf_eq_of_userStates _ _ _ (spc_userStates _ _ _ _)]
  rw [hsq]
  simp only [hgt, Bool.true_eq_false, if_false, if_pos hl, hdr]
  rw [h2]
  simp [husreps]

/-- In the monitoring phase, when the scheduling policy calls for
feedback but the AI call returns the empty string, the response carries
`should_provide_feedback=False` and no feedback text. -/
theorem monitoring_empty_text_no_feedback (svc : ServiceState) (ev : Event)
    (oracle : ℕ → AIOutcome) (us : UserState)
    (hgt : (shouldProvideCoaching svc ev.userId ev.activity ev.nowSec).1 = true)
    (hmc : movementCompletedOn svc ev = false)
    (hst : svc.userStates ev.userId = some us)
    (hph : us.coachingPhase = some .monitoring)
    (hact : pyLower ev.activity ∉ squatMonitoringActivities)
    (hint : ¬(ev.timestampMs - us.lastCoachingTimeMs.getD 0
        < getCoachingInterval ev.activity * 1000))
    (ho : oracle 0 = .ret (some "")) :
    (analyzeLiveFrame svc ev oracle).1.shouldProvideFeedback = some false ∧
    (analyzeLiveFrame svc ev oracle).1.feedback = none := by
  simp only [analyzeLiveFrame]
  set g := shouldProvideCoaching svc ev.userId ev.activity ev.nowSec with hg
  have hus2 : getUserState g.2 ev.userId = (us, g.2) := by
    apply getUserState_of_some
    rw [hg, spc_userStates]; exact hst
  rw [hus2]
  have hsq : g.2.squatDetectionState = svc.squatDetectionState := by
    rw [hg, spc_squatState]
  dsimp only
  rw [hsq]
  simp only [hgt, Bool.true_eq_false, if_false]
  set d := detectMovementCompletion ev.pose ev.activity ev.nowSec
    svc.squatDetectionState with hd
  by_cases hl : 0 < ev.pose.landmarksList.length
  · simp only [if_pos hl]
    have hres : d.result ≠ .ok true := by
      intro hcontra
      simp [movementCompletedOn, ← hg, hgt, hl, ← hd, hcontra] at hmc
    cases hdr : d.result with
    | error e => simp [hdr]
    | ok b =>
        cases b with
        | true => exact absurd hdr hres
        | false =>
            simp only [hdr, Bool.false_eq_true, if_false]
            rw [hph]
            simp only [Option.getD_some, ho]
            rw [analyzeTail_monitoring_empty _ _ _ _ _ hact hint]
            exact ⟨rfl, rfl⟩
  · simp only [if_neg hl]
    simp only [Bool.false_eq_true, if_false]
    rw [hph]
    simp only [Option.getD_some, ho]
    rw [analyzeTail_monitoring_empty _ _ _ _ _ hact hint]
    exact ⟨rfl, rfl⟩

/-- When a completed rep's AI call returns the empty string, control
falls through (using the pre-update phase and timing locals) to the
monitoring logic, which makes a second AI call; a truthy second response
is returned with `should_provide_feedback=True` — the AI text itself, not
a deterministic fallback — and the already-incremented rep count. -/
theorem rep_empty_text_second_call_text (svc : ServiceState) (ev : Event)
    (oracle : ℕ → AIOutcome) (us : UserState) (s : String)
    (h1 : movementCompletedOn svc ev = true)
    (h2 : oracle 0 = .ret (some ""))
    (hst : svc.userStates ev.userId = some us)
    (hph : us.coachingPhase = some .monitoring)
    (hact : pyLower ev.activity ∉ squatMonitoringActivities)
    (hint : ¬(ev.timestampMs - us.lastCoachingTimeMs.getD 0
        < getCoachingInterval ev.activity * 1000))
    (h7 : oracle 1 = .ret (some s))
    (h8 : ¬(s = "")) (h9 : pyStripNonempty s = true) :
    (analyzeLiveFrame svc ev oracle).1.shouldProvideFeedback = some true ∧
    (analyzeLiveFrame svc ev oracle).1.feedback = some s ∧
    (analyzeLiveFrame svc ev oracle).1.repCount
        = some (repsOf svc ev.userId + 1) := by
  simp only [movementCompletedOn, Bool.and_eq_true, decide_eq_true_eq] at h1
  obtain ⟨⟨hgt, hl⟩, hdr⟩ := h1
  have husreps : us.repsCompleted.getD 0 = repsOf svc ev.userId := by
    unfold repsOf; rw [hst]; rfl
  simp only [analyzeLiveFrame]
  set g := shouldProvideCoaching svc ev.userId ev.activity ev.nowSec with hg
  have hus2 : getUserState g.2 ev.userId = (us, g.2) := by
    apply getUserState_of_some
    rw [hg, spc_userStates]; exact hst
  rw [hus2]
  have hsq : g.2.squatDetectionState = svc.squatDetectionState := by
    rw [hg, spc_squatState]
  try dsimp only
  rw [hsq]
  simp only [hgt, Bool.true_eq_false, if_false, if_pos hl, hdr]
  try dsimp only
  rw [h2]
  try dsimp only
  simp only [Option.getD_some, ne_eq, not_true_eq_false, if_false]
  rw [hph]
  simp only [Option.getD_some, h7]
  rw [analyzeTail_monitoring_text _ _ _ _ _ _ hact hint h8 h9]
  simp [husreps]

/-- C3 (counterexample): on a snapshot in the raised pose — both wrists
above the shoulders (`armsUp` true) and ankles within 1.2 times hip
width — the jumping-jack detector returns `completed=true` on its very
first call, with no prior down-to-up transition and with `armsUp` true,
contradicting the claim that `true` is returned only when `armsUp` is
false after an earlier down-to-up transition. -/
theorem jumping_jack_fires_with_arms_up_counterexample :
    jjDetect (mkJJLms (1/2) (1/2) (1/5) (1/5) (2/5) (3/5) (9/20) (11/20))
        = .ok true ∧
    specJJArmsUp (1/2) (1/2) (1/5) (1/5) = true := by
  have h1 : |(9:ℚ)/20 - 11/20| = 1/10 := by
    rw [abs_sub_comm, abs_of_nonneg] <;> norm_num
  have h2 : |(2:ℚ)/5 - 3/5| = 1/5 := by
    rw [abs_sub_comm, abs_of_nonneg] <;> norm_num
  have h3 : |(1:ℚ)/10| = 1/10 := abs_of_nonneg (by norm_num)
  have h4 : |(1:ℚ)/5| = 1/5 := abs_of_nonneg (by norm_num)
  constructor
  · norm_num [jjDetect, jjDetectBody, pyIndex, mkJJLms, PyVal.getY, PyVal.getX,
      PyVal.truthy, dLm, bind, Except.bind, pure, Except.pure, h1, h2, h3, h4]
  · norm_num [specJJArmsUp]

/-- C3 (amended): the jumping-jack detector keeps no phase state at all;
on any well-formed 29-landmark snapshot it returns `completed=true`
exactly when `armsUp` (both wrists above their shoulders) and
`legsTogether` (ankle separation at most 1.2 times hip separation) hold
simultaneously — i.e. it fires on the raised pose, not on the return to
rest, and needs no earlier transition. -/
theorem jumping_jack_detector_is_stateless_pose_test :
    ∀ lsy rsy lwy rwy lhx rhx lax rax : ℚ,
      jjDetect (mkJJLms lsy rsy lwy rwy lhx rhx lax rax)
        = .ok (specJJCompleted lsy rsy lwy rwy lhx rhx lax rax) := by
  intro lsy rsy lwy rwy lhx rhx lax rax
  by_cases h : lwy < lsy
  · simp [jjDetect, jjDetectBody, pyIndex, mkJJLms, PyVal.getY, PyVal.getX,
      PyVal.truthy, dLm, specJJCompleted, specJJArmsUp, specJJLegsTogether, h,
      bind, Except.bind, pure, Except.pure]
  · simp [jjDetect, jjDetectBody, pyIndex, mkJJLms, PyVal.getY, PyVal.getX,
      PyVal.truthy, dLm, specJJCompleted, specJJArmsUp, specJJLegsTogether, h,
      bind, Except.bind, pure, Except.pure]

/-- C4: per event, the user's `reps_completed` counter is bumped by
exactly one iff that event's movement detection ran and returned
`completed=True` (the right-hand side does not mention the oracle, so the
update is the same whether the AI call succeeds, raises, times out, or
returns empty text — an already-counted rep is never rolled back), other
users are untouched, and over any event sequence the counter is
non-decreasing. -/
theorem rep_count_exact_increment_and_monotone :
    (∀ (svc : ServiceState) (ev : Event) (oracle : ℕ → AIOutcome),
        repsOf (analyzeLiveFrame svc ev oracle).2 ev.userId
          = repsOf svc ev.userId + (if movementCompletedOn svc ev then 1 else 0) ∧
        ∀ u : String, u ≠ ev.userId →
          repsOf (analyzeLiveFrame svc ev oracle).2 u = repsOf svc u) ∧
    (∀ (svc : ServiceState) (evs : List (Event × (ℕ → AIOutcome))) (u : String),
        repsOf svc u ≤ repsOf (runEvents svc evs) u) :=
  ⟨analyzeLiveFrame_reps, fun svc evs u => runEvents_repsOf_mono evs svc u⟩

theorem rep_count_exact_increment_and_monotone_witness :
    repsOf (analyzeLiveFrame gatedSvc gatedEv raiseOracle).2 "bob"
      = repsOf gatedSvc "bob" :=
  (rep_count_exact_increment_and_monotone.1 gatedSvc gatedEv raiseOracle).2
    "bob" (by with_unfolding_all decide)

/-- C5 (counterexample): with the shared squat state in mid-cycle, an
event one second after the user's last coaching — inside the 2.5 s squat
interval — carries landmarks on which the detector would return
`completed=true`, yet `analyze_live_frame` returns only the rate-limited
message and the rep counter stays 0: the interval gate suppresses rep
counting along with the feedback. -/
theorem interval_gate_blocks_rep_counting_counterexample :
    (detectMovementCompletion gatedEv.pose "squat" gatedEv.nowSec
        gatedSvc.squatDetectionState).result = .ok true ∧
    (analyzeLiveFrame gatedSvc gatedEv raiseOracle).1
        = { success := false, message := some "Coaching rate limited" } ∧
    repsOf (analyzeLiveFrame gatedSvc gatedEv raiseOracle).2 "alice" = 0 := by
  with_unfolding_all decide

/-- C5 (amended): an event arriving before the activity's coaching
interval has elapsed is suppressed entirely: `analyze_live_frame` returns
the rate-limited message before movement detection runs, so neither the
user dicts (including `reps_completed`) nor the shared squat detector
state change — rep counting is suppressed together with feedback. -/
theorem interval_gate_suppresses_whole_event :
    ∀ (svc : ServiceState) (ev : Event) (oracle : ℕ → AIOutcome),
      (shouldProvideCoaching svc ev.userId ev.activity ev.nowSec).1 = false →
      (analyzeLiveFrame svc ev oracle).1
          = { success := false, message := some "Coaching rate limited" } ∧
      (analyzeLiveFrame svc ev oracle).2.userStates = svc.userStates ∧
      (analyzeLiveFrame svc ev oracle).2.squatDetectionState
          = svc.squatDetectionState ∧
      ∀ u : String, repsOf (analyzeLiveFrame svc ev oracle).2 u = repsOf svc u := by
  intro svc ev oracle h
  obtain ⟨h1, h2, h3⟩ := rate_limited_skips_everything svc ev oracle h
  exact ⟨h1, h2, h3, fun u => repsOf_eq_of_userStates _ _ _ h2⟩

theorem interval_gate_suppresses_whole_event_witness :
    (analyzeLiveFrame gatedSvc gatedEv raiseOracle).1
      = { success := false, message := some "Coaching rate limited" } :=
  (interval_gate_suppresses_whole_event gatedSvc gatedEv raiseOracle
    (by with_unfolding_all decide)).1

/-- C6 (counterexample): in the monitoring phase, with the rate gate and
the monitoring interval both satisfied (the scheduling policy calls for
feedback), an AI call returning the empty string yields a response with
`should_provide_feedback=false` and no feedback text at all — no
heuristic fallback is substituted for empty text. -/
theorem empty_ai_text_yields_no_feedback_counterexample :
    (shouldProvideCoaching monitoringSvc "alice" "jumping jack" 100).1 = true ∧
    (analyzeLiveFrame monitoringSvc monitoringEv emptyOracle).1.shouldProvideFeedback
        = some false ∧
    (analyzeLiveFrame monitoringSvc monitoringEv emptyOracle).1.feedback = none := by
  with_unfolding_all decide

/-- C6 (amended): when a rep completes and the AI call raises (standing
in for exception or timeout), the response still has
`should_provide_feedback=true` and feedback equal to the deterministic
fallback string built from the incremented rep count.  Empty AI text does
not trigger that fallback: in the monitoring phase an empty-text AI call
yields `should_provide_feedback=false` with no feedback text; and when a
rep completes and the rep-path AI call returns empty text, control falls
through and a second AI call is made in the intro/monitoring logic — a
non-empty second response is returned with `should_provide_feedback=true`
carrying that AI text rather than a deterministic fallback, so such a
cycle need not be silent. -/
theorem ai_failure_feedback_characterization :
    (∀ (svc : ServiceState) (ev : Event) (oracle : ℕ → AIOutcome),
        movementCompletedOn svc ev = true → oracle 0 = .raise →
        (analyzeLiveFrame svc ev oracle).1.shouldProvideFeedback = some true ∧
        (analyzeLiveFrame svc ev oracle).1.feedback
            = some (repFallbackFeedback (repsOf svc ev.userId + 1)) ∧
        (analyzeLiveFrame svc ev oracle).1.repCount
            = some (repsOf svc ev.userId + 1)) ∧
    (∀ (svc : ServiceState) (ev : Event) (oracle : ℕ → AIOutcome) (us : UserState),
        (shouldProvideCoaching svc ev.userId ev.activity ev.nowSec).1 = true →
        movementCompletedOn svc ev = false →
        svc.userStates ev.userId = some us →
        us.coachingPhase = some .monitoring →
        pyLower ev.activity ∉ squatMonitoringActivities →
        ¬(ev.timestampMs - us.lastCoachingTimeMs.getD 0
            < getCoachingInterval ev.activity * 1000) →
        oracle 0 = .ret (some "") →
        (analyzeLiveFrame svc ev oracle).1.shouldProvideFeedback = some false ∧
        (analyzeLiveFrame svc ev oracle).1.feedback = none) ∧
    (∀ (svc : ServiceState) (ev : Event) (oracle : ℕ → AIOutcome)
        (us : UserState) (s : String),
        movementCompletedOn svc ev = true →
        oracle 0 = .ret (some "") →
        svc.userStates ev.userId = some us →
        us.coachingPhase = some .monitoring →
        pyLower ev.activity ∉ squatMonitoringActivities →
        ¬(ev.timestampMs - us.lastCoachingTimeMs.getD 0
            < getCoachingInterval ev.activity * 1000) →
        oracle 1 = .ret (some s) →
        ¬(s = "") → pyStripNonempty s = true →
        (analyzeLiveFrame svc ev oracle).1.shouldProvideFeedback = some true ∧
        (analyzeLiveFrame svc ev oracle).1.feedback = some s ∧
        (analyzeLiveFrame svc ev oracle).1.repCount
            = some (repsOf svc ev.userId + 1)) :=
  ⟨completed_rep_exception_gets_fallback, monitoring_empty_text_no_feedback,
   rep_empty_text_second_call_text⟩

theorem ai_failure_feedback_characterization_witness :
    ((analyzeLiveFrame readySvc readyEv raiseOracle).1.shouldProvideFeedback
        = some true ∧
     (analyzeLiveFrame readySvc readyEv raiseOracle).1.feedback
        = some (repFallbackFeedback (repsOf readySvc "alice" + 1)) ∧
     (analyzeLiveFrame readySvc readyEv raiseOracle).1.repCount
        = some (repsOf readySvc "alice" + 1)) ∧
    ((analyzeLiveFrame monitoringSvc monitoringEv emptyOracle).1.shouldProvideFeedback
        = some false ∧
     (analyzeLiveFrame monitoringSvc monitoringEv emptyOracle).1.feedback = none) ∧
    ((analyzeLiveFrame monitoringSvc jjMonitoringEv emptyThenTextOracle).1.shouldProvideFeedback
        = some true ∧
     (analyzeLiveFrame monitoringSvc jjMonitoringEv emptyThenTextOracle).1.feedback
        = some "Nice pace!" ∧
     (analyzeLiveFrame monitoringSvc jjMonitoringEv emptyThenTextOracle).1.repCount
        = some (repsOf monitoringSvc "alice" + 1)) :=
  ⟨ai_failure_feedback_characterization.1 readySvc readyEv raiseOracle
      (by with_unfolding_all decide) rfl,
   ai_failure_feedback_characterization.2.1 monitoringSvc monitoringEv emptyOracle
      monitoringUser
      (by with_unfolding_all decide) (by with_unfolding_all decide)
      (by with_unfolding_all decide) rfl (by decide)
      (by with_unfolding_all decide) rfl,
   ai_failure_feedback_characterization.2.2 monitoringSvc jjMonitoringEv
      emptyThenTextOracle monitoringUser "Nice pace!"
      (by with_unfolding_all decide) rfl
      (by with_unfolding_all decide) rfl (by decide)
      (by with_unfolding_all decide) rfl (by decide) (by decide)⟩

/-- C7: the depth-cycle detector state lives in a single service-level
attribute shared by every user.  After `alice` alone descends and ascends
through a deep squat, `bob`'s very first event is reported as a completed
movement (crediting him a rep), whereas the same `bob` event against a
fresh service reports no completion — interleaving another user's events
changes a user's detector outcome, so the state is not per-session. -/
theorem squat_detector_state_shared_across_users :
    (analyzeLiveFrame svcAfterAlice bobSquatEv raiseOracle).1.movementCompleted
        = some true ∧
    repsOf (analyzeLiveFrame svcAfterAlice bobSquatEv raiseOracle).2 "bob" = 1 ∧
    (analyzeLiveFrame initServiceState bobSquatEv raiseOracle).1.movementCompleted
        = some false ∧
    repsOf (analyzeLiveFrame initServiceState bobSquatEv raiseOracle).2 "bob" = 0 := by
  with_unfolding_all decide

/-- C8 (counterexample): a 29-entry landmark list whose index-23 entry is
`None` instead of a dict makes the squat path raise `AttributeError`
through `detect_movement_completion` (only `KeyError`/`IndexError`/
`TypeError` are caught), and a one-entry landmark list returns
`completed=false` without logging the warning — contradicting "returns
false, logs a warning, never raises" for malformed input. -/
theorem malformed_landmarks_counterexample :
    (detectMovementCompletion (.withLandmarks badSquatLms) "squat" 0 none).result
        = .error .attributeError ∧
    (detectMovementCompletion (.withLandmarks [dLm]) "squat" 0 none).warned
        = false := by
  constructor <;> rfl

/-- C8 (amended): pose data that is falsy or lacks a `landmarks` key, and
landmark lists shorter than the squat detector's 28-index requirement,
make `detect_movement_completion` return `completed=false` with no state
mutation, no exception — and no warning logged; but a landmark entry of
the wrong shape at a required index raises `AttributeError` to the
caller, because only `KeyError`/`IndexError`/`TypeError` are caught. -/
theorem malformed_landmarks_fail_soft_except_wrong_shape :
    (∀ (activity : String) (now : ℚ) (st : Option SquatState),
        detectMovementCompletion .noPose activity now st = ⟨.ok false, false, st⟩ ∧
        detectMovementCompletion .noLandmarksKey activity now st
          = ⟨.ok false, false, st⟩) ∧
    (∀ (lms : List PyVal) (now : ℚ) (st : Option SquatState),
        lms.length < 28 →
        detectMovementCompletion (.withLandmarks lms) "squat" now st
          = ⟨.ok false, false, st⟩) ∧
    (∀ (now : ℚ) (st : Option SquatState),
        detectMovementCompletion (.withLandmarks badSquatLms) "squat" now st
          = ⟨.error .attributeError, false, st⟩) := by
  refine ⟨fun activity now st => ⟨rfl, rfl⟩, fun lms now st h => ?_, fun now st => ?_⟩
  · have hd : detectDispatch "squat" = .squat := rfl
    simp [detectMovementCompletion, hd, squatDetect, h]
  · rfl

theorem malformed_landmarks_fail_soft_except_wrong_shape_witness :
    detectMovementCompletion (.withLandmarks [dLm]) "squat" 0 none
      = ⟨.ok false, false, none⟩ :=
  malformed_landmarks_fail_soft_except_wrong_shape.2.1 [dLm] 0 none
    (by decide)

/-- C9 (counterexample): an activity name containing both `plank` and
`squat` dispatches to the squat detector, not the plank detector — the
squat keyword is tested first, so plank-like holds do not win. -/
theorem dispatch_plank_squat_counterexample :
    detectDispatch "plank squat" = DetectorKind.squat ∧
    detectDispatch "plank squat" ≠ DetectorKind.plank := by
  constructor <;> decide

/-- C9 (amended): dispatch is by substring match on the lower-cased
activity name with the first matching category winning, in source order
squat, pushup/push-up, jumping jack, basketball, tennis/golf, plank, else
generic: any name containing `squat` goes to the squat detector, the
plank detector is chosen exactly when `plank` occurs and none of the
earlier keywords do, and the generic detector exactly when no keyword
occurs. -/
theorem dispatch_first_match_in_source_order :
    (∀ act : String, kwIn "squat" act = true → detectDispatch act = .squat) ∧
    (∀ act : String, detectDispatch act = .plank ↔
      (kwIn "plank" act = true ∧ kwIn "squat" act = false ∧
       kwIn "pushup" act = false ∧ kwIn "push-up" act = false ∧
       kwIn "jumping jack" act = false ∧ kwIn "basketball" act = false ∧
       kwIn "tennis" act = false ∧ kwIn "golf" act = false)) ∧
    (∀ act : String, detectDispatch act = .generic ↔
      (kwIn "squat" act = false ∧
       kwIn "pushup" act = false ∧ kwIn "push-up" act = false ∧
       kwIn "jumping jack" act = false ∧ kwIn "basketball" act = false ∧
       kwIn "tennis" act = false ∧ kwIn "golf" act = false ∧
       kwIn "plank" act = false)) := by
  refine ⟨?_, ?_, ?_⟩ <;> intro act <;> unfold detectDispatch <;>
    split_ifs <;> simp_all <;> intros <;> simp_all

theorem dispatch_first_match_in_source_order_witness :
    detectDispatch "squat" = DetectorKind.squat :=
  dispatch_first_match_in_source_order.1 "squat" (by decide)

/-- C10: `should_provide_coaching` is effectful on success — whenever it
returns `True` it stores the current wall-clock time as the user's last
coaching time, so a second call for the same user within the activity's
interval returns `False`: a caller that consults the gate and then emits
no feedback has still consumed the interval window. -/
theorem coaching_gate_consumes_window :
    ∀ (svc : ServiceState) (u a : String) (t1 t2 : ℚ),
      ((shouldProvideCoaching svc u a t1).1 = true →
        (shouldProvideCoaching svc u a t1).2.lastCoachingTime u = some t1) ∧
      ((shouldProvideCoaching svc u a t1).1 = true →
        t2 - t1 < getCoachingInterval a →
        (shouldProvideCoaching (shouldProvideCoaching svc u a t1).2 u a t2).1
          = false) := by
  intro svc u a t1 t2
  constructor
  · exact spc_true_sets svc u a t1
  · intro h1 h2
    have hset := spc_true_sets svc u a t1 h1
    set S := shouldProvideCoaching svc u a t1 with hS
    have hlt : ¬ (t2 - t1 ≥ getCoachingInterval a) := not_le.mpr (by linarith)
    simp only [shouldProvideCoaching]
    simp [hset, hlt]

theorem coaching_gate_consumes_window_witness :
    (shouldProvideCoaching
      (shouldProvideCoaching initServiceState "alice" "squat" 100).2
      "alice" "squat" 101).1 = false :=
  (coaching_gate_consumes_window initServiceState "alice" "squat" 100 101).2
    (by with_unfolding_all decide)
    (by have h : getCoachingInterval "squat" = 5/2 := rfl
        rw [h]; norm_num)

end GeminiEyes
